import Mathlib

/-!
Verification development for the go-repository-bun data-access layer.

The Go sources are shallowly embedded: pure helper functions become Lean
functions, reflection-driven code is specialised to concrete record types,
and store-touching operations are modelled as functions of the collaborator
outcomes they consume (every database call is an explicit argument).
Machine integers are modelled as Nat/Int with explicit wrap-around where the
Go code can wrap.  Go standard-library string primitives are re-implemented
on character lists so that every definition evaluates inside the kernel.
Every definition is translated from the code under src/; where the
repository's own tests demand behavior that code lacks, the corresponding
theorem evaluates the embedded code at the failing input.
-/

/-! ## Go string helpers (models of the strings/strconv standard library) -/

/-- Prefix test on character lists, mirroring how strings.HasPrefix behaves. -/
def charsIsPrefixOf : List Char → List Char → Bool
  | [], _ => true
  | _ :: _, [] => false
  | a :: as, b :: bs => a == b && charsIsPrefixOf as bs

/-- Substring occurrence test on character lists (strings.Contains). -/
def charsContains (pat : List Char) : List Char → Bool
  | [] => charsIsPrefixOf pat []
  | c :: rest => charsIsPrefixOf pat (c :: rest) || charsContains pat rest

/-- Model of strings.Contains: does s contain pat as a substring. -/
def containsSubstr (s pat : String) : Bool :=
  charsContains pat.toList s.toList

/-- Occurrence of pat1 followed (anywhere later) by pat2, modelling a
regular expression of the form pat1, then a dot-star, then pat2. -/
def charsContainsSeq (p1 p2 : List Char) : List Char → Bool
  | [] => charsIsPrefixOf p1 [] && charsContains p2 []
  | c :: rest =>
    (charsIsPrefixOf p1 (c :: rest) && charsContains p2 ((c :: rest).drop p1.length))
      || charsContainsSeq p1 p2 rest

/-- Model of strings.TrimSpace on character lists. -/
def goTrimChars (cs : List Char) : List Char :=
  ((cs.dropWhile Char.isWhitespace).reverse.dropWhile Char.isWhitespace).reverse

/-- Model of strings.TrimSpace. -/
def goTrim (s : String) : String :=
  String.mk (goTrimChars s.toList)

/-- Split a character list on a separator character (strings.Split). -/
def splitOnCharAux (sep : Char) (cur : List Char) : List Char → List (List Char)
  | [] => [cur.reverse]
  | c :: rest =>
    if c = sep then cur.reverse :: splitOnCharAux sep [] rest
    else splitOnCharAux sep (c :: cur) rest

/-- Model of strings.Split with a one-character separator. -/
def splitOnChar (sep : Char) (s : String) : List String :=
  (splitOnCharAux sep [] s.toList).map (fun cs => String.mk cs)

/-- Split a character list at whitespace runs, keeping possibly-empty chunks. -/
def splitWhitespaceAux (cur : List Char) : List Char → List (List Char)
  | [] => [cur.reverse]
  | c :: rest =>
    if c.isWhitespace then cur.reverse :: splitWhitespaceAux [] rest
    else splitWhitespaceAux (c :: cur) rest

/-- Model of strings.Fields: split on whitespace runs, dropping empties. -/
def goFields (s : String) : List String :=
  ((splitWhitespaceAux [] s.toList).filter (fun cs => cs ≠ [])).map
    (fun cs => String.mk cs)

/-- Model of strings.Join with a single-space separator. -/
def joinSpace : List String → String
  | [] => ""
  | [p] => p
  | p :: rest => p ++ (" " ++ joinSpace rest)

/-- Model of strings.Join with a dot separator. -/
def joinDot : List String → String
  | [] => ""
  | [p] => p
  | p :: rest => p ++ ("." ++ joinDot rest)

/-- Model of strings.ToUpper (ASCII content only is relevant here). -/
def goToUpper (s : String) : String :=
  String.mk (s.toList.map Char.toUpper)

/-- Model of strings.ToLower (ASCII content only is relevant here). -/
def goToLower (s : String) : String :=
  String.mk (s.toList.map Char.toLower)

/-- Boolean lexicographic strict order on character lists. -/
def charsLt : List Char → List Char → Bool
  | [], [] => false
  | [], _ :: _ => true
  | _ :: _, [] => false
  | a :: as, b :: bs => if a < b then true else if b < a then false else charsLt as bs

/-- Boolean strict order on strings, used to model Go's sort.Strings. -/
def strLtB (a b : String) : Bool :=
  charsLt a.toList b.toList

/-- Boolean less-or-equal on strings. -/
def strLeB (a b : String) : Bool :=
  !(strLtB b a)

/-- Insert a string into an already sorted list. -/
def insertSorted (x : String) : List String → List String
  | [] => [x]
  | y :: ys => if strLeB x y then x :: y :: ys else y :: insertSorted x ys

/-- Sort a list of strings (models sort.Strings inside sortedMapKeys). -/
def sortStrings (l : List String) : List String :=
  l.foldr insertSorted []

/-- Linear membership scan, embedding the containsString helper of scopes.go. -/
def containsString (list : List String) (value : String) : Bool :=
  match list with
  | [] => false
  | item :: rest => if item = value then true else containsString rest value

/-! ## Scope registry and resolver (scopes.go)

Direct embedding of the scope context plumbing: scopeContextConfig,
the WithXxxScopes constructors, scopeNamesForOperation, uniqueStrings and
ResolveScopeState.  Scope data payloads are opaque and modelled as Nat. -/

inductive ScopeOperation where
  | select
  | update
  | insert
  | delete
deriving DecidableEq

structure ScopeDefaults where
  All : List String := []
  Select : List String := []
  Update : List String := []
  Insert : List String := []
  Delete : List String := []
deriving DecidableEq

structure scopeContextConfig where
  useDefaults : Bool
  all : List String
  selects : List String
  updates : List String
  inserts : List String
  deletes : List String
  data : List (String × Nat)
deriving DecidableEq

/-- A Go context carrying (or not) a scope configuration value. -/
abbrev GoContext := Option scopeContextConfig

/-- Model of cloneScopeContextConfig: a missing config becomes the default
(useDefaults true); value semantics makes the copy implicit. -/
def cloneScopeContextConfig : GoContext → scopeContextConfig
  | none => { useDefaults := true, all := [], selects := [], updates := [],
              inserts := [], deletes := [], data := [] }
  | some cfg => cfg

/-- Trim each name; append non-blank names not already present (withScopeNames). -/
def appendScopeNames (dest : List String) (names : List String) : List String :=
  names.foldl
    (fun acc name =>
      let trimmed := goTrim name
      if trimmed ≠ "" && !(containsString acc trimmed) then acc ++ [trimmed]
      else acc)
    dest

def WithScopes (ctx : GoContext) (names : List String) : GoContext :=
  if names.isEmpty then ctx
  else
    let cfg := cloneScopeContextConfig ctx
    some { cfg with all := appendScopeNames cfg.all names }

def WithSelectScopes (ctx : GoContext) (names : List String) : GoContext :=
  if names.isEmpty then ctx
  else
    let cfg := cloneScopeContextConfig ctx
    some { cfg with selects := appendScopeNames cfg.selects names }

def WithUpdateScopes (ctx : GoContext) (names : List String) : GoContext :=
  if names.isEmpty then ctx
  else
    let cfg := cloneScopeContextConfig ctx
    some { cfg with updates := appendScopeNames cfg.updates names }

def WithInsertScopes (ctx : GoContext) (names : List String) : GoContext :=
  if names.isEmpty then ctx
  else
    let cfg := cloneScopeContextConfig ctx
    some { cfg with inserts := appendScopeNames cfg.inserts names }

def WithDeleteScopes (ctx : GoContext) (names : List String) : GoContext :=
  if names.isEmpty then ctx
  else
    let cfg := cloneScopeContextConfig ctx
    some { cfg with deletes := appendScopeNames cfg.deletes names }

def WithoutDefaultScopes (ctx : GoContext) : GoContext :=
  some { cloneScopeContextConfig ctx with useDefaults := false }

def ScopeDataSnapshot : GoContext → List (String × Nat)
  | none => []
  | some cfg => cfg.data

/-- Context-supplied names for one operation plus the useDefaults flag. -/
def scopeNamesForOperation (ctx : GoContext) (op : ScopeOperation) :
    List String × Bool :=
  match ctx with
  | none => ([], true)
  | some cfg =>
    let selection :=
      match op with
      | .select => cfg.selects
      | .update => cfg.updates
      | .insert => cfg.inserts
      | .delete => cfg.deletes
    (cfg.all ++ selection, cfg.useDefaults)

/-- Worker for uniqueStrings with the seen-set made explicit. -/
def uniqueStringsAux (seen : List String) : List String → List String
  | [] => []
  | v :: rest =>
    if v = "" then uniqueStringsAux seen rest
    else if containsString seen v then uniqueStringsAux seen rest
    else v :: uniqueStringsAux (v :: seen) rest

/-- Drop empty strings and duplicates after the first occurrence,
preserving first-seen order (uniqueStrings). -/
def uniqueStrings (values : List String) : List String :=
  uniqueStringsAux [] values

/-- Per-operation default names (the switch inside ResolveScopeState). -/
def defaultsForOperation (defaults : ScopeDefaults) (op : ScopeOperation) :
    List String :=
  match op with
  | .select => defaults.Select
  | .update => defaults.Update
  | .insert => defaults.Insert
  | .delete => defaults.Delete

structure ScopeState where
  Operation : ScopeOperation
  UseDefaults : Bool
  Names : List String
  Data : List (String × Nat)
deriving DecidableEq

/-- Ordered candidate names before deduplication: defaults (All then the
operation list) followed by context-supplied names. -/
def scopeNameCandidates (ctx : GoContext) (defaults : ScopeDefaults)
    (op : ScopeOperation) : List String :=
  let contextInfo := scopeNamesForOperation ctx op
  (if contextInfo.2 then defaults.All ++ defaultsForOperation defaults op else [])
    ++ contextInfo.1

/-- Embedding of ResolveScopeState. -/
def ResolveScopeState (ctx : GoContext) (defaults : ScopeDefaults)
    (op : ScopeOperation) : ScopeState :=
  let contextInfo := scopeNamesForOperation ctx op
  let names :=
    (if contextInfo.2 then defaults.All ++ defaultsForOperation defaults op else [])
      ++ contextInfo.1
  { Operation := op
    UseDefaults := contextInfo.2
    Names := uniqueStrings names
    Data := ScopeDataSnapshot ctx }

/-! ## SQL identifier and operator normalization (query_insert_criteria.go) -/

/-- First character of an identifier segment: ASCII letter or underscore. -/
def sqlIdentStartChar (c : Char) : Bool :=
  c.isAlpha || c = '_'

/-- Subsequent identifier characters: ASCII letter, digit, or underscore. -/
def sqlIdentChar (c : Char) : Bool :=
  c.isAlphanum || c = '_'

/-- One dotted segment matching the sqlIdentifierPattern regular expression. -/
def sqlIdentSegmentOK (s : String) : Bool :=
  match s.toList with
  | [] => false
  | c :: cs => sqlIdentStartChar c && cs.all sqlIdentChar

/-- Embedding of normalizeSQLIdentifier: trim, split on dots, require every
segment to match the identifier pattern, and rejoin. -/
def normalizeSQLIdentifier (identifier : String) : Option String :=
  let identifier := goTrim identifier
  if identifier = "" then none
  else
    let parts := splitOnChar '.' identifier
    if parts.all sqlIdentSegmentOK then some (joinDot parts) else none

/-- The fixed comparison-operator whitelist (comparisonOperators). -/
def comparisonOperators : List String :=
  [("="), ("!="), ("<>"), (">"), (">="), ("<"), ("<="),
   ("LIKE"), ("ILIKE"), ("NOT LIKE"), ("NOT ILIKE"),
   ("IS"), ("IS NOT"), ("IS DISTINCT FROM"), ("IS NOT DISTINCT FROM")]

/-- Embedding of normalizeSQLOperator: trim, collapse whitespace runs to a
single space, and uppercase. -/
def normalizeSQLOperator (operator : String) : String :=
  goToUpper (joinSpace (goFields (goTrim operator)))

/-- Embedding of normalizeComparisonOperator: canonicalize, then test
membership in the whitelist. -/
def normalizeComparisonOperator (operator : String) : Option String :=
  let operator := normalizeSQLOperator operator
  if containsString comparisonOperators operator then some operator else none

/-! ## Select criteria as predicate producers (query_select_criteria.go)

A select query is modelled by its accumulated AND-composed WHERE predicates;
a row is an assignment of string values to column names.  The comparison
semantics of the SQL dialect is the collaborator's; a simple total evaluator
is supplied because the claims only depend on the never-matching predicate. -/

inductive WherePred where
  | never
  | cmp (col op val : String)
  | colCmp (col1 op col2 : String)
deriving DecidableEq

structure SelectQuery where
  wheres : List WherePred := []
deriving DecidableEq

/-- Append one WHERE predicate (bun's q.Where, AND-composed). -/
def whereAdd (q : SelectQuery) (p : WherePred) : SelectQuery :=
  { q with wheres := q.wheres ++ [p] }

/-- Embedding of SelectBy: validated column and operator produce a bound
comparison; anything invalid adds the never-matching predicate 1=0. -/
def SelectBy (column operator value : String) (q : SelectQuery) : SelectQuery :=
  match normalizeSQLIdentifier column, normalizeComparisonOperator operator with
  | some col, some op => whereAdd q (.cmp col op value)
  | _, _ => whereAdd q .never

/-- Embedding of SelectColumnCompare: both columns and the operator must
validate; anything invalid adds the never-matching predicate 1=0. -/
def SelectColumnCompare (col1 operator col2 : String) (q : SelectQuery) :
    SelectQuery :=
  match normalizeSQLIdentifier col1, normalizeSQLIdentifier col2,
      normalizeComparisonOperator operator with
  | some left, some right, some op => whereAdd q (.colCmp left op right)
  | _, _, _ => whereAdd q .never

/-- A database row for predicate evaluation: column name to stored text. -/
abbrev DBRow := String → String

/-- SQL LIKE pattern matching with percent and underscore wildcards. -/
def likeChars : List Char → List Char → Bool
  | [], [] => true
  | [], _ :: _ => false
  | '%' :: ps, s =>
    likeChars ps s ||
      (match s with
       | [] => false
       | _ :: rest => likeChars ('%' :: ps) rest)
  | '_' :: ps, _ :: ss => likeChars ps ss
  | '_' :: _, [] => false
  | p :: ps, c :: ss => p == c && likeChars ps ss
  | _ :: _, [] => false
termination_by p s => (s.length, p.length)

/-- Total evaluator for the whitelisted comparison operators; IS and the
DISTINCT FROM family degenerate to plain (in)equality because null tracking
lives in the collaborator store. -/
def evalOp (op l r : String) : Bool :=
  if op = "=" then l == r
  else if op = "!=" then l != r
  else if op = "<>" then l != r
  else if op = "<" then strLtB l r
  else if op = ">" then strLtB r l
  else if op = "<=" then strLeB l r
  else if op = ">=" then strLeB r l
  else if op = "LIKE" then likeChars r.toList l.toList
  else if op = "ILIKE" then likeChars (goToLower r).toList (goToLower l).toList
  else if op = "NOT LIKE" then !(likeChars r.toList l.toList)
  else if op = "NOT ILIKE" then !(likeChars (goToLower r).toList (goToLower l).toList)
  else if op = "IS" then l == r
  else if op = "IS NOT" then l != r
  else if op = "IS DISTINCT FROM" then l != r
  else if op = "IS NOT DISTINCT FROM" then l == r
  else false

/-- Evaluate one predicate against a row; 1=0 never matches. -/
def predMatches (row : DBRow) : WherePred → Bool
  | .never => false
  | .cmp col op val => evalOp op (row col) val
  | .colCmp col1 op col2 => evalOp op (row col1) (row col2)

/-- A row matches a query when every AND-composed predicate holds. -/
def queryMatches (q : SelectQuery) (row : DBRow) : Bool :=
  q.wheres.all (predMatches row)

/-! ## Error taxonomy and driver error mapping (errors.go, utils.go)

The go-errors collaborator is modelled at its boundary: a wrapped error
carries a category, a retryability flag, a message and a text code.  Raw
driver errors are structured by their recognisable shape; every constructor
carries the message text that the Go code inspects. -/

inductive ErrCategory where
  | database
  | databaseNotFound
  | databaseConstraint
  | databaseDuplicate
  | databaseConnection
  | databaseTimeout
  | databaseLock
  | databasePermission
  | databaseSyntax
  | databaseExpectedCount
  | operationRetry
  | externalService
  | validation
deriving DecidableEq

/-- A categorized (wrapped) go-errors value.  operationRetry and
externalService stand for the categories produced by the collaborator's
NewRetryableOperation and NewRetryableExternal constructors. -/
structure WErr where
  category : ErrCategory
  retryable : Bool
  msg : String
  textCode : String
deriving DecidableEq

/-- SQLite driver error codes reaching MapSQLiteErrors. -/
inductive SqliteCode where
  | errConstraint
  | errBusy
  | errLocked
  | errAuth
  | otherCode
deriving DecidableEq

/-- Raw (uncategorized) errors from the database/sql layer and the drivers.
noRows, txDone and connDone are the package-level sentinels compared with
equality in MapCommonDatabaseErrors. -/
inductive RawErr where
  | noRows
  | txDone
  | connDone
  | pgError (code : String) (msg : String)
  | sqliteError (code : SqliteCode) (msg : String)
  | generic (msg : String)
deriving DecidableEq

/-- The message text of a raw error (err.Error()). -/
def rawErrMsg : RawErr → String
  | .noRows => "sql: no rows in result set"
  | .txDone => "sql: transaction has already been committed or rolled back"
  | .connDone => "sql: connection is already closed"
  | .pgError _ m => m
  | .sqliteError _ m => m
  | .generic m => m

/-- An error value flowing through the repository: either already
categorized by go-errors or still raw. -/
inductive GoError where
  | wrapped (w : WErr)
  | raw (r : RawErr)
deriving DecidableEq

/-- Model of errors.IsWrapped: is the error already categorized. -/
def IsWrapped : GoError → Bool
  | .wrapped _ => true
  | .raw _ => false

/-- Embedding of MapPostgresErrors: the switch on pq error codes. -/
def MapPostgresErrors : RawErr → Option WErr
  | .pgError code _ =>
    if code = "23505" then
      some ⟨.databaseDuplicate, false,
        ("Duplicate key value violates unique constraint"), ("DUPLICATE_KEY")⟩
    else if code = "23503" then
      some ⟨.databaseConstraint, false,
        ("Foreign key constraint violation"), ("FOREIGN_KEY_VIOLATION")⟩
    else if code = "23514" then
      some ⟨.databaseConstraint, false,
        ("Check constraint violation"), ("CHECK_CONSTRAINT_VIOLATION")⟩
    else if code = "23502" then
      some ⟨.databaseConstraint, false,
        ("Not null constraint violation"), ("NOT_NULL_VIOLATION")⟩
    else if code = "40001" then
      some ⟨.operationRetry, true,
        ("Serialization failure, retry transaction"), ("SERIALIZATION_FAILURE")⟩
    else if code = "40P01" then
      some ⟨.operationRetry, true, ("Deadlock detected"), ("DEADLOCK_DETECTED")⟩
    else if code = "08000" ∨ code = "08003" ∨ code = "08006" then
      some ⟨.externalService, true,
        ("Database connection error"), ("CONNECTION_ERROR")⟩
    else if code = "42501" then
      some ⟨.databasePermission, false,
        ("Insufficient privilege"), ("INSUFFICIENT_PRIVILEGE")⟩
    else if code = "42601" then
      some ⟨.databaseSyntax, false, ("SQL syntax error"), ("SYNTAX_ERROR")⟩
    else none
  | _ => none

/-- Embedding of MapSQLiteErrors: the switch on sqlite3 error codes with
substring checks on the constraint message. -/
def MapSQLiteErrors : RawErr → Option WErr
  | .sqliteError code msg =>
    match code with
    | .errConstraint =>
      if containsSubstr msg ("UNIQUE") then
        some ⟨.databaseDuplicate, false,
          ("Duplicate key value violates unique constraint"), ("DUPLICATE_KEY")⟩
      else if containsSubstr msg ("FOREIGN KEY") then
        some ⟨.databaseConstraint, false,
          ("Foreign key constraint violation"), ("FOREIGN_KEY_VIOLATION")⟩
      else if containsSubstr msg ("NOT NULL") then
        some ⟨.databaseConstraint, false,
          ("Not null constraint violation"), ("NOT_NULL_VIOLATION")⟩
      else
        some ⟨.databaseConstraint, false,
          ("Constraint violation"), ("CONSTRAINT_VIOLATION")⟩
    | .errBusy =>
      some ⟨.operationRetry, true, ("Database is locked"), ("DATABASE_LOCKED")⟩
    | .errLocked =>
      some ⟨.operationRetry, true, ("Database table is locked"), ("TABLE_LOCKED")⟩
    | .errAuth =>
      some ⟨.databasePermission, false,
        ("Authorization denied"), ("AUTHORIZATION_DENIED")⟩
    | .otherCode => none
  | _ => none

/-- Embedding of MapMSSQLErrors: case-insensitive pattern checks on the
message text.  The Go code iterates a map of regular expressions whose order
is unspecified; the source-literal order is fixed here. -/
def MapMSSQLErrors (err : RawErr) : Option WErr :=
  let msg := goToLower (rawErrMsg err)
  if containsSubstr msg ("duplicate key")
      || charsContainsSeq ("unique").toList ("constraint").toList msg.toList then
    some ⟨.databaseDuplicate, false, ("Duplicate key violation"), ("DUPLICATE_KEY")⟩
  else if charsContainsSeq ("foreign key").toList ("constraint").toList msg.toList then
    some ⟨.databaseConstraint, false,
      ("Foreign key constraint violation"), ("FOREIGN_KEY_VIOLATION")⟩
  else if containsSubstr msg ("deadlock") || containsSubstr msg ("was deadlocked") then
    some ⟨.operationRetry, true, ("Deadlock detected"), ("DEADLOCK_DETECTED")⟩
  else if containsSubstr msg ("timeout") || containsSubstr msg ("query timeout") then
    some ⟨.operationRetry, true, ("Query timeout"), ("QUERY_TIMEOUT")⟩
  else if containsSubstr msg ("permission denied")
      || containsSubstr msg ("access denied") then
    some ⟨.databasePermission, false, ("Permission denied"), ("PERMISSION_DENIED")⟩
  else none

/-- Embedding of MapCommonDatabaseErrors: sentinel comparisons first, then
substring checks on the message. -/
def MapCommonDatabaseErrors (err : RawErr) : Option WErr :=
  match err with
  | .noRows =>
    some ⟨.databaseNotFound, false, ("Record not found"), ("RECORD_NOT_FOUND")⟩
  | .txDone =>
    some ⟨.database, false,
      ("Transaction has already been committed or rolled back"),
      ("TRANSACTION_DONE")⟩
  | .connDone =>
    some ⟨.externalService, true,
      ("Database connection is closed"), ("CONNECTION_CLOSED")⟩
  | _ =>
    if containsSubstr (rawErrMsg err) ("connection refused") then
      some ⟨.externalService, true,
        ("Database connection refused"), ("CONNECTION_REFUSED")⟩
    else if containsSubstr (rawErrMsg err) ("timeout") then
      some ⟨.operationRetry, true,
        ("Database operation timeout"), ("DATABASE_TIMEOUT")⟩
    else none

/-- Embedding of GetDatabaseErrorMappers: the per-driver mapper chains. -/
def GetDatabaseErrorMappers (driver : String) : List (RawErr → Option WErr) :=
  if driver = "postgres" ∨ driver = "pgx" then
    [MapPostgresErrors, MapCommonDatabaseErrors]
  else if driver = "sqlite3" ∨ driver = "sqlite" then
    [MapSQLiteErrors, MapCommonDatabaseErrors]
  else if driver = "sqlserver" ∨ driver = "mssql" then
    [MapMSSQLErrors, MapCommonDatabaseErrors]
  else
    [MapCommonDatabaseErrors]

/-- First mapper hit wins (the loop inside MapDatabaseError). -/
def firstMapperHit : List (RawErr → Option WErr) → RawErr → Option WErr
  | [], _ => none
  | m :: ms, e =>
    match m e with
    | some w => some w
    | none => firstMapperHit ms e

/-- The generic fallback of MapDatabaseError: a retryable database-category
error with the DATABASE_ERROR text code. -/
def databaseFallbackErr : WErr :=
  ⟨.database, true, ("Database operation failed"), ("DATABASE_ERROR")⟩

/-- Embedding of MapDatabaseError for a present raw error. -/
def MapDatabaseError (err : RawErr) (driver : String) : WErr :=
  match firstMapperHit (GetDatabaseErrorMappers driver) err with
  | some w => w
  | none => databaseFallbackErr

/-- Embedding of repo.mapError: nil maps to nil, already-wrapped errors pass
through unchanged, raw errors go through MapDatabaseError once. -/
def mapError (driver : String) : Option GoError → Option GoError
  | none => none
  | some (.wrapped w) => some (.wrapped w)
  | some (.raw r) => some (.wrapped (MapDatabaseError r driver))

/-- Model of IsRecordNotFound: the sql.ErrNoRows sentinel or the
database_not_found category.  The retryable-wrapper base-error case of the
Go code collapses here because a modelled wrapped error carries its category
directly. -/
def IsRecordNotFound : Option GoError → Bool
  | none => false
  | some (.raw .noRows) => true
  | some (.raw _) => false
  | some (.wrapped w) => w.category = ErrCategory.databaseNotFound

/-- Model of IsDuplicatedKey: errors.IsCategory on database_duplicate. -/
def IsDuplicatedKey : Option GoError → Bool
  | some (.wrapped w) => w.category = ErrCategory.databaseDuplicate
  | _ => false

/-! ## Expected row count enforcement in Update (utils.go, repo.go)

UpdateTx is modelled as a function of the collaborator execution outcome: a
driver error, or a sql.Result whose RowsAffected either fails or yields a
count.  The record type is abstract with an explicit zero value standing for
Go's var zero T. -/

/-- A sql.Result: its RowsAffected call either fails or yields a count. -/
structure SQLResult where
  rowsAffected : Except RawErr Int

/-- Embedding of SQLExpectedCount: a RowsAffected failure is wrapped in the
database category; a count mismatch becomes the non-retryable
database_expected_count violation carrying both numbers. -/
def SQLExpectedCount (res : SQLResult) (expected : Int) : Option GoError :=
  match res.rowsAffected with
  | .error _ =>
    some (.wrapped ⟨.database, false,
      ("Failed to get rows affected count"), ("WRAPPED_DATABASE")⟩)
  | .ok total =>
    if total ≠ expected then
      some (.wrapped ⟨.databaseExpectedCount, false,
        ("Expected ") ++ toString expected ++ (" affected rows, got ")
          ++ toString total,
        ("SQL_EXPECTED_COUNT_VIOLATION")⟩)
    else none

/-- Embedding of UpdateTx for a record type ρ with explicit zero value:
driver errors are mapped; then SQLExpectedCount with expected count one is
enforced, returning the zero record alongside any violation. -/
def UpdateTx (ρ : Type) (zero : ρ) (driver : String) (record : ρ)
    (exec : Except RawErr SQLResult) : ρ × Option GoError :=
  match exec with
  | .error e => (zero, mapError driver (some (.raw e)))
  | .ok res =>
    match SQLExpectedCount res 1 with
    | some err => (zero, some err)
    | none => (record, none)

/-! ## Map projection and patch engine (map_helpers.go)

The reflection-driven engine is specialised to two concrete record types
mirroring the repository's own test models: a record with a 128-bit primary
key, a string field, a Go int field and an optional bool field; and a record
with a single uint64 field.  Payload values carry the dynamic types that a
map payload can hold here.  assignValue's control flow is embedded per
destination type: nil handling, pointer allocation, uuid parsing, the
same-type fast path, the reflect Convert fast path (which wraps integers
with no range check), and the final kind switch with strconv parsing. -/

inductive GoVal where
  | vStr (s : String)
  | vInt (n : Int)
  | vUint64 (n : Nat)
  | vBool (b : Bool)
  | vUUID (u : Nat)
  | vNull
deriving DecidableEq

/-- Two's-complement reinterpretation of a 64-bit unsigned value as signed
(the effect of a reflect Convert from uint64 into a signed 64-bit field). -/
def toSigned64 (u : Nat) : Int :=
  if u % 2 ^ 64 < 2 ^ 63 then ((u % 2 ^ 64 : Nat) : Int)
  else ((u % 2 ^ 64 : Nat) : Int) - 2 ^ 64

/-- Two's-complement reinterpretation of a signed value as 64-bit unsigned
(the effect of a reflect Convert from a signed integer into uint64). -/
def toUnsigned64 (n : Int) : Nat :=
  (n % 2 ^ 64).toNat

/-- Value of one hexadecimal digit character. -/
def hexDigitVal (c : Char) : Option Nat :=
  if '0' ≤ c ∧ c ≤ '9' then some (c.toNat - '0'.toNat)
  else if 'a' ≤ c ∧ c ≤ 'f' then some (c.toNat - 'a'.toNat + 10)
  else if 'A' ≤ c ∧ c ≤ 'F' then some (c.toNat - 'A'.toNat + 10)
  else none

/-- Fold hexadecimal digits into a number; none on a non-hex character. -/
def hexCharsToNatAux (acc : Nat) : List Char → Option Nat
  | [] => some acc
  | c :: rest =>
    match hexDigitVal c with
    | some d => hexCharsToNatAux (acc * 16 + d) rest
    | none => none

/-- Lower-case hexadecimal digit character for a value below sixteen. -/
def hexDigitChar (n : Nat) : Char :=
  if n < 10 then Char.ofNat ('0'.toNat + n) else Char.ofNat ('a'.toNat + n - 10)

/-- Fixed-width big-endian hexadecimal rendering. -/
def natToHexChars : Nat → Nat → List Char
  | 0, _ => []
  | k + 1, u => natToHexChars k (u / 16) ++ [hexDigitChar (u % 16)]

/-- Canonical hyphenated rendering of a 128-bit identifier
(uuid.UUID.String). -/
def uuidToString (u : Nat) : String :=
  let ds := natToHexChars 32 u
  String.mk (ds.take 8 ++ ['-'] ++ ((ds.drop 8).take 4) ++ ['-']
    ++ ((ds.drop 12).take 4) ++ ['-'] ++ ((ds.drop 16).take 4) ++ ['-']
    ++ ds.drop 20)

/-- Model of uuid.Parse restricted to the canonical hyphenated and plain
32-digit forms (the braced and urn forms the Go library also accepts never
occur in this development). -/
def parseUUID (s : String) : Option Nat :=
  let cs := s.toList
  if cs.length = 36 then
    let parts := splitOnCharAux '-' [] cs
    if parts.map List.length = [8, 4, 4, 4, 12] then hexCharsToNatAux 0 parts.flatten
    else none
  else if cs.length = 32 then hexCharsToNatAux 0 cs
  else none

/-- Model of the isUUID helper (utils.go): uuid.Parse succeeds. -/
def isUUID (s : String) : Bool :=
  (parseUUID s).isSome

/-- Value of one decimal digit character. -/
def decDigitVal (c : Char) : Option Nat :=
  if c.isDigit then some (c.toNat - '0'.toNat) else none

/-- Fold decimal digits into a number; none on a non-digit. -/
def decCharsToNatAux (acc : Nat) : List Char → Option Nat
  | [] => some acc
  | c :: rest =>
    match decDigitVal c with
    | some d => decCharsToNatAux (acc * 10 + d) rest
    | none => none

/-- Decimal digits to a number, requiring at least one digit. -/
def decCharsToNat : List Char → Option Nat
  | [] => none
  | cs => decCharsToNatAux 0 cs

/-- Model of strconv.ParseInt with base ten and 64-bit size: optional sign,
decimal digits, and a range check that rejects overflow. -/
def parseIntGo (s : String) : Option Int :=
  match s.toList with
  | '+' :: rest =>
    (decCharsToNat rest).bind (fun n => if n ≤ 2 ^ 63 - 1 then some ((n : Int)) else none)
  | '-' :: rest =>
    (decCharsToNat rest).bind (fun n => if n ≤ 2 ^ 63 then some (-(n : Int)) else none)
  | cs =>
    (decCharsToNat cs).bind (fun n => if n ≤ 2 ^ 63 - 1 then some ((n : Int)) else none)

/-- Model of strconv.ParseUint with base ten and 64-bit size. -/
def parseUintGo (s : String) : Option Nat :=
  (decCharsToNat s.toList).bind (fun n => if n ≤ 2 ^ 64 - 1 then some n else none)

/-- Model of strconv.ParseBool: the twelve accepted literals. -/
def parseBoolGo (s : String) : Option Bool :=
  if containsString [("1"), ("t"), ("T"), ("TRUE"), ("true"), ("True")] s then some true
  else if containsString [("0"), ("f"), ("F"), ("FALSE"), ("false"), ("False")] s then
    some false
  else none

/-- Go integer-to-string conversion (the rune interpretation reflect Convert
performs): a valid scalar value becomes a one-character string, anything
else the replacement character. -/
def goRuneString (n : Int) : String :=
  if 0 ≤ n ∧ n < 0xD800 then String.mk [Char.ofNat n.toNat]
  else if 0xE000 ≤ n ∧ n < 0x110000 then String.mk [Char.ofNat n.toNat]
  else String.mk [Char.ofNat 0xFFFD]

/-- Model of fmt.Sprint on a bool. -/
def goSprintBool (b : Bool) : String :=
  if b then "true" else "false"

/-- Distinct assignment failures of assignValue (invalid uuid text, invalid
numeric or bool text, unsupported source type for the destination kind). -/
inductive AssignErr where
  | invalidUUID (s : String)
  | invalidInt (s : String)
  | invalidUint (s : String)
  | invalidBool (s : String)
  | unsupportedSource (dstKind : String)
deriving DecidableEq

/-- Distinct patch failures (the sentinel errors of map_helpers.go plus the
wrapped per-field assignment failure). -/
inductive PatchErr where
  | unknownField (key : String)
  | fieldNotAllowed (key : String)
  | primaryKeyNotAllowed (key : String)
  | assignFailed (key : String) (e : AssignErr)
deriving DecidableEq

/-- One persisted-field binding of the descriptor (mapFieldBinding). -/
structure FieldBind where
  structName : String
  bunName : String
  jsonName : String
  jsonIgnored : Bool
  isPrimary : Bool
deriving DecidableEq

/-- One planned write (patchPlanItem). -/
structure PlanItem where
  inputKey : String
  value : GoVal
  field : FieldBind
deriving DecidableEq

/-- Patch configuration (mapPatchConfig); the key mode is fixed to the
storage (bun) strategy used by the claims. -/
structure MapPatchCfg where
  allowedFields : List String := []
  ignoreUnknown : Bool := false
  ignoreNil : Bool := false
  denyPrimaryKey : Bool := false
deriving DecidableEq

/-- Embedding of fieldAllowed: an empty allow-list allows everything,
otherwise the payload key or any of the field's names must be listed. -/
def fieldAllowed (allowlist : List String) (payloadKey : String)
    (field : FieldBind) : Bool :=
  allowlist.isEmpty
    || containsString allowlist payloadKey
    || containsString allowlist field.bunName
    || containsString allowlist field.structName
    || (!field.jsonIgnored && containsString allowlist field.jsonName)

/-- Look up the payload value for a key drawn from the patch map. -/
def lookupPatchValue (patch : List (String × GoVal)) (key : String) : GoVal :=
  match patch.find? (fun kv => kv.1 = key) with
  | some kv => kv.2
  | none => .vNull

/-- Embedding of buildPatchPlan's key loop over the sorted keys. -/
def buildPatchPlanAux (fields : List FieldBind) (patch : List (String × GoVal))
    (cfg : MapPatchCfg) : List String → Except PatchErr (List PlanItem)
  | [] => .ok []
  | key :: rest =>
    let value := lookupPatchValue patch key
    if cfg.ignoreNil && (value == GoVal.vNull) then
      buildPatchPlanAux fields patch cfg rest
    else
      match fields.find? (fun b => b.bunName = key) with
      | none =>
        if cfg.ignoreUnknown then buildPatchPlanAux fields patch cfg rest
        else .error (.unknownField key)
      | some field =>
        if cfg.denyPrimaryKey && field.isPrimary then .error (.primaryKeyNotAllowed key)
        else if !(fieldAllowed cfg.allowedFields key field) then
          .error (.fieldNotAllowed key)
        else
          match buildPatchPlanAux fields patch cfg rest with
          | .ok plan => .ok (⟨key, value, field⟩ :: plan)
          | .error e => .error e

/-- Embedding of buildPatchPlan: keys are processed in sorted order. -/
def buildPatchPlan (fields : List FieldBind) (patch : List (String × GoVal))
    (cfg : MapPatchCfg) : Except PatchErr (List PlanItem) :=
  buildPatchPlanAux fields patch cfg (sortStrings (patch.map Prod.fst))

/-- A concrete record type together with its descriptor and its assignValue
specialisation (assignment is keyed by the storage column name). -/
structure RecordModel (ρ : Type) where
  zero : ρ
  fields : List FieldBind
  assign : ρ → String → GoVal → Except AssignErr ρ

/-- First-seen deduplication of column names (the seenColumns set). -/
def dedupStringsAux (seen : List String) : List String → List String
  | [] => []
  | c :: rest =>
    if containsString seen c then dedupStringsAux seen rest
    else c :: dedupStringsAux (c :: seen) rest

def dedupStrings (l : List String) : List String :=
  dedupStringsAux [] l

/-- The assignment loop of ApplyMapPatch running over the clone; the first
failing assignment aborts with the field's key attached. -/
def applyPlanItems (ρ : Type) (M : RecordModel ρ) (clone : ρ) :
    List PlanItem → Except PatchErr ρ
  | [] => .ok clone
  | item :: rest =>
    match M.assign clone item.field.bunName item.value with
    | .error e => .error (.assignFailed item.inputKey e)
    | .ok next => applyPlanItems ρ M next rest

/-- Embedding of ApplyMapPatch.  mutableStructValue clones a by-value record
before any write, so the caller's record is never mutated; every error path
returns the zero record (var zero T), no touched columns and the error. -/
def applyMapPatchWith (ρ : Type) (M : RecordModel ρ) (record : ρ)
    (patch : List (String × GoVal)) (cfg : MapPatchCfg) :
    ρ × List String × Option PatchErr :=
  if patch.isEmpty then (record, [], none)
  else
    match buildPatchPlan M.fields patch cfg with
    | .error e => (M.zero, [], some e)
    | .ok plan =>
      match applyPlanItems ρ M record plan with
      | .error e => (M.zero, [], some e)
      | .ok clone => (clone, dedupStrings (plan.map (fun item => item.field.bunName)), none)

/-- The concrete record the engine is specialised to: a 128-bit primary key,
a string field, a Go int field, and an optional bool field (mirroring the
repository's own map-helper test model). -/
structure MapRecord where
  id : Nat
  name : String
  count : Int
  enabled : Option Bool
deriving DecidableEq

def zeroMapRecord : MapRecord :=
  { id := 0, name := "", count := 0, enabled := none }

/-- assignValue specialised to MapRecord's four destination types, keeping
the source's branch order: nil, pointer allocation, uuid parsing, same-type
assignment, reflect Convert (which wraps integers), then the kind switch. -/
def assignMapRecordField (r : MapRecord) (column : String) (src : GoVal) :
    Except AssignErr MapRecord :=
  if column = "id" then
    match src with
    | .vNull => .ok { r with id := 0 }
    | .vUUID u => .ok { r with id := u }
    | .vStr s =>
      match parseUUID s with
      | some u => .ok { r with id := u }
      | none => .error (.invalidUUID s)
    | _ => .error (.unsupportedSource ("uuid"))
  else if column = "name" then
    match src with
    | .vNull => .ok { r with name := "" }
    | .vStr s => .ok { r with name := s }
    | .vInt n => .ok { r with name := goRuneString n }
    | .vUint64 u => .ok { r with name := goRuneString ((u : Int)) }
    | .vBool b => .ok { r with name := goSprintBool b }
    | .vUUID u => .ok { r with name := uuidToString u }
  else if column = "count" then
    match src with
    | .vNull => .ok { r with count := 0 }
    | .vInt n => .ok { r with count := n }
    | .vUint64 u => .ok { r with count := toSigned64 u }
    | .vStr s =>
      match parseIntGo s with
      | some n => .ok { r with count := n }
      | none => .error (.invalidInt s)
    | _ => .error (.unsupportedSource ("int"))
  else if column = "enabled" then
    match src with
    | .vNull => .ok { r with enabled := none }
    | .vBool b => .ok { r with enabled := some b }
    | .vStr s =>
      match parseBoolGo s with
      | some b => .ok { r with enabled := some b }
      | none => .error (.invalidBool s)
    | _ => .error (.unsupportedSource ("bool"))
  else .error (.unsupportedSource column)

/-- The cached descriptor for MapRecord under the three naming strategies
(all names coincide here; the id field is the primary key). -/
def mapRecordFields : List FieldBind :=
  [⟨("ID"), ("id"), ("id"), false, true⟩,
   ⟨("Name"), ("name"), ("name"), false, false⟩,
   ⟨("Count"), ("count"), ("count"), false, false⟩,
   ⟨("Enabled"), ("enabled"), ("enabled"), false, false⟩]

def mapRecordModel : RecordModel MapRecord :=
  ⟨zeroMapRecord, mapRecordFields, assignMapRecordField⟩

/-- ApplyMapPatch specialised to MapRecord. -/
def ApplyMapPatch (record : MapRecord) (patch : List (String × GoVal))
    (cfg : MapPatchCfg) : MapRecord × List String × Option PatchErr :=
  applyMapPatchWith MapRecord mapRecordModel record patch cfg

/-- Embedding of EntityToMap for MapRecord under the storage (bun) strategy
with nil pointers included as explicit null (the default projection). -/
def EntityToMap (r : MapRecord) : List (String × GoVal) :=
  [(("id"), .vUUID r.id),
   (("name"), .vStr r.name),
   (("count"), .vInt r.count),
   (("enabled"), match r.enabled with | some b => .vBool b | none => .vNull)]

/-- A record with a single uint64 field (the unsigned test model). -/
structure UintRecord where
  value : Nat
deriving DecidableEq

def zeroUintRecord : UintRecord :=
  { value := 0 }

/-- assignValue specialised to a uint64 destination: signed sources hit the
reflect Convert fast path and wrap modulo 2^64 with no range check. -/
def assignUintRecordField (r : UintRecord) (column : String) (src : GoVal) :
    Except AssignErr UintRecord :=
  if column = "value" then
    match src with
    | .vNull => .ok { r with value := 0 }
    | .vUint64 u => .ok { r with value := u }
    | .vInt n => .ok { r with value := toUnsigned64 n }
    | .vStr s =>
      match parseUintGo s with
      | some n => .ok { r with value := n }
      | none => .error (.invalidUint s)
    | _ => .error (.unsupportedSource ("uint"))
  else .error (.unsupportedSource column)

def uintRecordFields : List FieldBind :=
  [⟨("Value"), ("value"), ("value"), false, false⟩]

def uintRecordModel : RecordModel UintRecord :=
  ⟨zeroUintRecord, uintRecordFields, assignUintRecordField⟩

/-! ## Identity resolution, create-or-fetch, and identifier lookup (repo.go)

The store-touching operations are embedded as functions of the lookup and
execution outcomes they consume.  A lookup outcome is an Except value; the
engine classifies its error side with IsRecordNotFound, exactly as the Go
code does.  Each function additionally reports which lookups it performed
(as a call trace or a resolution-pass count), which makes it stateable that
the code performs no further lookups: findExistingRecord (repo.go 296-324)
ends after its primary-key and identifier steps with no custom-resolver
consultation (nothing in src wires WithRecordLookupResolver into the repo),
and GetOrCreateTx/UpsertTx/UpsertManyTx (repo.go 330-342, 431-444, 450-477)
return CreateTx's error directly with no duplicate-key re-resolution.
GetByIdentifierTx (repo.go 348-371) issues a single query and forces the id
column whenever the identifier parses as a UUID. -/

/-- Outcome of one identity-resolution pass: the record found (if any) and
the error (if any), mirroring findExistingRecord's (T, bool, error). -/
abbrev FindOutcome (ρ : Type) := Option ρ × Option GoError

/-- Apply repo.mapError to a present error (the mapped error is always
present when the input is). -/
def mapPresentError (driver : String) (e : GoError) : GoError :=
  match mapError driver (some e) with
  | some mapped => mapped
  | none => e

inductive LookupCall where
  | byPrimaryKey
  | byIdentifier
  | byResolver
deriving DecidableEq

/-- The per-record collaborator outcomes consumed by one UpsertMany step. -/
structure UpsertStep (ρ : Type) where
  resolve : Nat → FindOutcome ρ
  createRes : Except GoError ρ
  updRes : Except GoError ρ

/-- The generic not-found error (Record not found, database_not_found). -/
def genericNotFoundErr : GoError :=
  .wrapped ⟨.databaseNotFound, false, ("Record not found"), ("RECORD_NOT_FOUND")⟩

/-- The identifier-value step of findExistingRecord (repo.go 311-321):
consulted only when the identifier handler is configured and the trimmed
value is non-blank; a hit wins, a non-not-found failure propagates, and a
not-found leaves the function to report no existing record — there is no
further lookup step after it. -/
def identifierLookupStep (ρ : Type) (identConfigured : Bool)
    (identValue : String) (lookupIdent : Except GoError ρ) :
    (Option ρ × Option GoError) × List LookupCall :=
  if identConfigured && (goTrim identValue != "") then
    match lookupIdent with
    | .ok r => ((some r, none), [.byIdentifier])
    | .error e =>
      if IsRecordNotFound (some e) then ((none, none), [.byIdentifier])
      else ((none, some e), [.byIdentifier])
  else ((none, none), [])

/-- Embedding of findExistingRecord (repo.go 296-324): the primary-key
lookup when the GetID handler is present and the key is non-nil (nil being
zero), then the identifier step, then not-found.  The trace records which
lookups ran; the procedure performs reads only and never consults a
custom lookup resolver. -/
def findExistingRecord (ρ : Type) (hasGetID : Bool) (pk : Nat)
    (identConfigured : Bool) (identValue : String)
    (lookupPK lookupIdent : Except GoError ρ) :
    (Option ρ × Option GoError) × List LookupCall :=
  if hasGetID && (pk != 0) then
    match lookupPK with
    | .ok r => ((some r, none), [.byPrimaryKey])
    | .error e =>
      if IsRecordNotFound (some e) then
        ((identifierLookupStep ρ identConfigured identValue lookupIdent).1,
          .byPrimaryKey ::
            (identifierLookupStep ρ identConfigured identValue lookupIdent).2)
      else ((none, some e), [.byPrimaryKey])
  else identifierLookupStep ρ identConfigured identValue lookupIdent

/-- Embedding of GetOrCreateTx (repo.go 330-342).  resolve n is the outcome
of the n-th identity-resolution pass and createRes is CreateTx's
already-mapped outcome; the Nat result counts resolution passes.  A
resolution error is mapped and returned, a found row is returned, and
otherwise CreateTx's outcome is returned directly — there is no
duplicate-key check and no second resolution pass. -/
def GetOrCreateTx (ρ : Type) (driver : String) (resolve : Nat → FindOutcome ρ)
    (createRes : Except GoError ρ) : Except GoError ρ × Nat :=
  match resolve 0 with
  | (_, some e) => (.error (mapPresentError driver e), 1)
  | (some r, none) => (.ok r, 1)
  | (none, none) => (createRes, 1)

/-- Embedding of UpsertTx (repo.go 431-444): as GetOrCreateTx, except that a
found row leads to the update path (updRes is UpdateTx's already-mapped
outcome after the discovered primary key is copied onto the candidate).
The not-found branch returns CreateTx's outcome directly, with no
duplicate-key recovery. -/
def UpsertTx (ρ : Type) (driver : String) (resolve : Nat → FindOutcome ρ)
    (createRes updRes : Except GoError ρ) : Except GoError ρ × Nat :=
  match resolve 0 with
  | (_, some e) => (.error (mapPresentError driver e), 1)
  | (some _, none) => (updRes, 1)
  | (none, none) => (createRes, 1)

/-- Embedding of UpsertManyTx (repo.go 450-477): the upsert step is applied
to each record in order and the first error aborts the whole call (mapped
once more on the way out, a passthrough for already-wrapped errors).  The
Nat result totals the resolution passes. -/
def UpsertManyTx (ρ : Type) (driver : String) :
    List (UpsertStep ρ) → Except GoError (List ρ) × Nat
  | [] => (.ok [], 0)
  | s :: rest =>
    match UpsertTx ρ driver s.resolve s.createRes s.updRes with
    | (.error e, n) => (.error (mapPresentError driver e), n)
    | (.ok r, n) =>
      match UpsertManyTx ρ driver rest with
      | (.ok rs, m) => (.ok (r :: rs), n + m)
      | (.error e, m) => (.error e, n + m)

/-- The column GetByIdentifierTx queries (repo.go 349-357): id by default,
the configured identifier column when its trimmed name is non-empty, but
forced back to id whenever the identifier itself parses as a UUID. -/
def getByIdentifierColumn (identCol : Option String) (identifier : String) :
    String :=
  let column :=
    match identCol with
    | some col => if goTrim col != "" then goTrim col else ("id")
    | none => ("id")
  if isUUID identifier then ("id") else column

/-- First row of the table matching the query (Scan with Limit 1). -/
def firstMatch (rows : List DBRow) (q : SelectQuery) : Option DBRow :=
  match rows with
  | [] => none
  | r :: rest => if queryMatches q r then some r else firstMatch rest q

/-- Embedding of GetByIdentifierTx (repo.go 348-371) against a table of
rows: one query filtered by the single resolved column equalling the
identifier; an empty scan yields sql.ErrNoRows, which mapError turns into
the categorized not-found. -/
def GetByIdentifierTx (identCol : Option String) (identifier : String)
    (rows : List DBRow) (driver : String) : Option DBRow × Option GoError :=
  let q := whereAdd ⟨[]⟩
    (.cmp (getByIdentifierColumn identCol identifier) ("=") identifier)
  match firstMatch rows q with
  | some r => (some r, none)
  | none => (none, mapError driver (some (.raw .noRows)))

/-- A stored row whose configured identifier column holds a string that
itself parses as a UUID, while its primary key is a different value (the
scenario of TestRepository_GetByIdentifier_UUIDStringInCustomColumn). -/
def uuidIdentifierRow : DBRow :=
  fun col =>
    if col = "identifier" then ("3f2504e0-4f89-11d3-9a0c-0305e82c3301")
    else if col = "id" then ("11111111-2222-3333-4444-555555555555")
    else ""

/-! ## Theorems -/

theorem containsString_iff (l : List String) (v : String) :
    containsString l v = true ↔ v ∈ l := by
  induction l with
  | nil => simp [containsString]
  | cons item rest ih =>
    by_cases h : item = v
    · subst h
      simp [containsString]
    · simp only [containsString, if_neg h, List.mem_cons, ih]
      constructor
      · exact Or.inr
      · rintro (hv | hv)
        · exact absurd hv.symm h
        · exact hv

theorem uniqueStringsAux_mem (seen : List String) (l : List String) (x : String) :
    x ∈ uniqueStringsAux seen l ↔ x ∈ l ∧ x ≠ "" ∧ ¬ x ∈ seen := by
  induction l generalizing seen with
  | nil => simp [uniqueStringsAux]
  | cons v rest ih =>
    simp only [uniqueStringsAux]
    by_cases hv : v = ""
    · rw [if_pos hv, ih]
      constructor
      · rintro ⟨h1, h2, h3⟩
        exact ⟨List.mem_cons_of_mem _ h1, h2, h3⟩
      · rintro ⟨h1, h2, h3⟩
        rcases List.mem_cons.mp h1 with h | h
        · rw [h, hv] at h2
          exact absurd rfl h2
        · exact ⟨h, h2, h3⟩
    · rw [if_neg hv]
      by_cases hs : containsString seen v = true
      · rw [if_pos hs, ih]
        constructor
        · rintro ⟨h1, h2, h3⟩
          exact ⟨List.mem_cons_of_mem _ h1, h2, h3⟩
        · rintro ⟨h1, h2, h3⟩
          rcases List.mem_cons.mp h1 with h | h
          · subst h
            exact absurd ((containsString_iff seen x).mp hs) h3
          · exact ⟨h, h2, h3⟩
      · rw [if_neg hs]
        simp only [List.mem_cons]
        rw [ih]
        constructor
        · rintro (h | ⟨h1, h2, h3⟩)
          · subst h
            refine ⟨Or.inl rfl, hv, ?_⟩
            intro hmem
            exact hs ((containsString_iff seen x).mpr hmem)
          · refine ⟨Or.inr h1, h2, ?_⟩
            intro hmem
            exact h3 (List.mem_cons_of_mem _ hmem)
        · rintro ⟨h1 | h1, h2, h3⟩
          · exact Or.inl h1
          · by_cases hxv : x = v
            · exact Or.inl hxv
            · refine Or.inr ⟨h1, h2, ?_⟩
              intro hmem
              rcases List.mem_cons.mp hmem with h | h
              · exact hxv h
              · exact h3 h

theorem uniqueStringsAux_nodup (seen : List String) (l : List String) :
    (uniqueStringsAux seen l).Nodup := by
  induction l generalizing seen with
  | nil => simp [uniqueStringsAux]
  | cons v rest ih =>
    simp only [uniqueStringsAux]
    by_cases hv : v = ""
    · rw [if_pos hv]
      exact ih seen
    · rw [if_neg hv]
      by_cases hs : containsString seen v = true
      · rw [if_pos hs]
        exact ih seen
      · rw [if_neg hs]
        refine List.nodup_cons.mpr ⟨?_, ih (v :: seen)⟩
        intro hmem
        have := (uniqueStringsAux_mem (v :: seen) rest v).mp hmem
        exact this.2.2 (List.mem_cons_self v seen)

theorem uniqueStringsAux_sublist (seen : List String) (l : List String) :
    (uniqueStringsAux seen l).Sublist l := by
  induction l generalizing seen with
  | nil => simp [uniqueStringsAux]
  | cons v rest ih =>
    simp only [uniqueStringsAux]
    by_cases hv : v = ""
    · rw [if_pos hv]
      exact (ih seen).cons _
    · rw [if_neg hv]
      by_cases hs : containsString seen v = true
      · rw [if_pos hs]
        exact (ih seen).cons _
      · rw [if_neg hs]
        exact (ih (v :: seen)).cons₂ _

theorem uniqueStrings_nodup (l : List String) : (uniqueStrings l).Nodup :=
  uniqueStringsAux_nodup [] l

theorem uniqueStrings_sublist (l : List String) : (uniqueStrings l).Sublist l :=
  uniqueStringsAux_sublist [] l

theorem uniqueStrings_mem (l : List String) (x : String) :
    x ∈ uniqueStrings l ↔ x ∈ l ∧ x ≠ "" := by
  rw [uniqueStrings, uniqueStringsAux_mem]
  simp

/-- C3.  Scope-name resolution is deterministic: the resolved list is
duplicate-free, is an order-preserving subselection of the candidate list in
which default names precede context-supplied names, keeps exactly the
non-blank candidates, and on the spec's concrete example (defaults
select = a, context override select = b, possibly repeating a) resolves to
exactly the list a then b. -/
theorem c3_scope_resolution_deterministic :
    (∀ (ctx : GoContext) (defaults : ScopeDefaults) (op : ScopeOperation),
        (ResolveScopeState ctx defaults op).Names.Nodup)
    ∧ (∀ (ctx : GoContext) (defaults : ScopeDefaults) (op : ScopeOperation),
        (ResolveScopeState ctx defaults op).Names.Sublist
          (scopeNameCandidates ctx defaults op))
    ∧ (∀ (ctx : GoContext) (defaults : ScopeDefaults) (op : ScopeOperation)
          (x : String),
        x ∈ (ResolveScopeState ctx defaults op).Names
          ↔ x ∈ scopeNameCandidates ctx defaults op ∧ x ≠ "")
    ∧ (ResolveScopeState (WithSelectScopes none [("b")]) { Select := [("a")] }
        ScopeOperation.select).Names = [("a"), ("b")]
    ∧ (ResolveScopeState (WithSelectScopes none [("b"), ("a")])
        { Select := [("a")] } ScopeOperation.select).Names = [("a"), ("b")] := by
  refine ⟨?_, ?_, ?_, ?_, ?_⟩
  · intro ctx defaults op
    exact uniqueStrings_nodup _
  · intro ctx defaults op
    exact uniqueStrings_sublist _
  · intro ctx defaults op x
    exact uniqueStrings_mem _ x
  · decide
  · decide

theorem queryMatches_whereAdd (q : SelectQuery) (p : WherePred) (row : DBRow) :
    queryMatches (whereAdd q p) row = (queryMatches q row && predMatches row p) := by
  simp [queryMatches, whereAdd, List.all_append, List.all_cons]

/-- C10.  When the column of SelectBy fails identifier normalization or the
operator is not accepted by the comparison-operator whitelist (likewise for
either column or the operator of SelectColumnCompare), the criterion adds the
never-matching predicate 1=0, so no row matches the resulting query. -/
theorem c10_invalid_criteria_match_no_rows :
    (∀ (column operator value : String) (q : SelectQuery) (row : DBRow),
        (normalizeSQLIdentifier column = none ∨
            normalizeComparisonOperator operator = none) →
        queryMatches (SelectBy column operator value q) row = false)
    ∧ (∀ (col1 operator col2 : String) (q : SelectQuery) (row : DBRow),
        (normalizeSQLIdentifier col1 = none ∨
            normalizeSQLIdentifier col2 = none ∨
            normalizeComparisonOperator operator = none) →
        queryMatches (SelectColumnCompare col1 operator col2 q) row = false) := by
  constructor
  · intro column operator value q row h
    have hq : SelectBy column operator value q = whereAdd q .never := by
      unfold SelectBy
      rcases h with h | h
      · rw [h]
        all_goals cases normalizeComparisonOperator operator <;> rfl
      · rw [h]
        all_goals cases normalizeSQLIdentifier column <;> rfl
    rw [hq, queryMatches_whereAdd]
    simp [predMatches]
  · intro col1 operator col2 q row h
    have hq : SelectColumnCompare col1 operator col2 q = whereAdd q .never := by
      unfold SelectColumnCompare
      rcases h with h | h | h
      · rw [h]
        all_goals cases normalizeSQLIdentifier col2 <;>
          cases normalizeComparisonOperator operator <;> rfl
      · rw [h]
        all_goals cases normalizeSQLIdentifier col1 <;>
          cases normalizeComparisonOperator operator <;> rfl
      · rw [h]
        all_goals cases normalizeSQLIdentifier col1 <;>
          cases normalizeSQLIdentifier col2 <;> rfl
    rw [hq, queryMatches_whereAdd]
    simp [predMatches]

/-- C10 witness: a column containing a semicolon is rejected by identifier
normalization, and the resulting queries match no rows. -/
theorem c10_invalid_criteria_match_no_rows_witness :
    queryMatches (SelectBy ("users;drop") ("=") ("x") ⟨[]⟩) (fun _ => "")
        = false
    ∧ queryMatches (SelectColumnCompare ("a") ("=;") ("b") ⟨[]⟩) (fun _ => "")
        = false :=
  ⟨c10_invalid_criteria_match_no_rows.1 ("users;drop") ("=") ("x") ⟨[]⟩ (fun _ => "")
      (Or.inl (by decide)),
   c10_invalid_criteria_match_no_rows.2 ("a") ("=;") ("b") ⟨[]⟩ (fun _ => "")
      (Or.inr (Or.inr (by decide)))⟩

/-- C8.  Every error leaving a repository operation goes through mapError
exactly once: nil maps to nil, an already-categorized error is returned
unchanged, a raw error always leaves categorized (so a second pass is the
identity), and a raw error no mapper recognises falls back to the generic
retryable database-category failure. -/
theorem c8_error_mapping_once (driver : String) :
    mapError driver none = none
    ∧ (∀ w : WErr, mapError driver (some (.wrapped w)) = some (.wrapped w))
    ∧ (∀ r : RawErr, ∃ w : WErr,
        mapError driver (some (.raw r)) = some (.wrapped w))
    ∧ (∀ e : Option GoError,
        mapError driver (mapError driver e) = mapError driver e)
    ∧ (∀ r : RawErr,
        firstMapperHit (GetDatabaseErrorMappers driver) r = none →
        mapError driver (some (.raw r)) = some (.wrapped databaseFallbackErr)) := by
  refine ⟨rfl, fun w => rfl, ?_, ?_, ?_⟩
  · intro r
    exact ⟨MapDatabaseError r driver, rfl⟩
  · intro e
    match e with
    | none => rfl
    | some (.wrapped w) => rfl
    | some (.raw r) => rfl
  · intro r h
    simp only [mapError, MapDatabaseError, h]

/-- C8 witness: an unrecognisable raw error under the postgres driver chain
falls back to the generic retryable database error. -/
theorem c8_error_mapping_once_witness :
    mapError ("postgres") (some (.raw (.generic ("boom"))))
      = some (.wrapped databaseFallbackErr) :=
  (c8_error_mapping_once ("postgres")).2.2.2.2 (.generic ("boom")) (by decide)

/-- C2.  If the update query executes without a driver error and affects a
number of rows other than one, UpdateTx returns the zero record together
with the distinct non-retryable database_expected_count violation — never a
generic error and never silent success. -/
theorem c2_update_expected_count (ρ : Type) (zero : ρ) (driver : String)
    (record : ρ) (n : Int) (h : n ≠ 1) :
    UpdateTx ρ zero driver record (.ok ⟨.ok n⟩)
      = (zero, some (.wrapped ⟨.databaseExpectedCount, false,
          ("Expected 1 affected rows, got ") ++ toString n,
          ("SQL_EXPECTED_COUNT_VIOLATION")⟩)) := by
  simp only [UpdateTx, SQLExpectedCount, if_pos h]
  rfl

/-- C2 witness: zero affected rows (a scope excluded the target) yields the
expected-count violation and the zero record. -/
theorem c2_update_expected_count_witness :
    UpdateTx Nat 0 ("postgres") 7 (.ok ⟨.ok 0⟩)
      = (0, some (.wrapped ⟨.databaseExpectedCount, false,
          ("Expected 1 affected rows, got 0"),
          ("SQL_EXPECTED_COUNT_VIOLATION")⟩)) := by
  have h := c2_update_expected_count Nat 0 ("postgres") 7 0 (by decide)
  simpa using h

/-- C5.  The spec and the repository's own overflow test demand that numeric
payload values outside the destination field's range be rejected, but
assignValue's reflect Convert fast path fires before any range check: the
maximal uint64 stored into a signed int field silently wraps to minus one,
and minus one stored into a uint64 field silently wraps to the maximal
value, both with no error — evaluating the embedded code at the failing
inputs of TestApplyMapPatch_RejectsOverflowAndUnderflow. -/
theorem c5_numeric_overflow_wraps_without_error :
    ApplyMapPatch zeroMapRecord [(("count"), .vUint64 (2 ^ 64 - 1))] {}
      = ({ zeroMapRecord with count := -1 }, [("count")], none)
    ∧ applyMapPatchWith UintRecord uintRecordModel zeroUintRecord
        [(("value"), .vInt (-1))] {}
      = ({ value := 2 ^ 64 - 1 }, [("value")], none) := by
  constructor
  · decide
  · decide

/-- C6.  Whenever ApplyMapPatch reports an error — an unknown field, a
disallowed field, a denied primary key, or a failing value assignment at any
key of a multi-key patch — the returned record is the zero value and no
touched columns are reported; because the engine clones a by-value record
before mutating (mutableStructValue), the caller's original record is the
unchanged input, so no partial mutation is observable. -/
theorem c6_patch_error_no_partial_mutation
    (record : MapRecord) (patch : List (String × GoVal)) (cfg : MapPatchCfg)
    (rec : MapRecord) (cols : List String) (e : PatchErr)
    (h : ApplyMapPatch record patch cfg = (rec, cols, some e)) :
    rec = zeroMapRecord ∧ cols = [] := by
  unfold ApplyMapPatch applyMapPatchWith at h
  split at h
  · simp at h
  · split at h
    · simp only [Prod.mk.injEq] at h
      exact ⟨h.1.symm, h.2.1.symm⟩
    · split at h
      · simp only [Prod.mk.injEq] at h
        exact ⟨h.1.symm, h.2.1.symm⟩
      · simp at h

/-- C6 witness: a two-key patch whose first key (count) assigns cleanly and
whose second key (enabled) fails leaves no trace of the first write: the
call returns the zero record, no columns, and the per-field error. -/
theorem c6_patch_error_no_partial_mutation_witness :
    ApplyMapPatch ⟨1, ("keep"), 7, some true⟩
        [(("count"), .vInt 5), (("enabled"), .vInt 1)] {}
      = (zeroMapRecord, [],
          some (.assignFailed ("enabled") (.unsupportedSource ("bool"))))
    ∧ (zeroMapRecord = zeroMapRecord ∧ ([] : List String) = []) :=
  ⟨by decide,
   c6_patch_error_no_partial_mutation ⟨1, ("keep"), 7, some true⟩
     [(("count"), .vInt 5), (("enabled"), .vInt 1)] {}
     zeroMapRecord [] (.assignFailed ("enabled") (.unsupportedSource ("bool")))
     (by decide)⟩

/-- C7.  Projecting a record to a map under the storage (bun) strategy with
no exclusions and patching a fresh (zero) record with that map reproduces
every included field's value exactly; the touched columns are the four
storage names in sorted key order. -/
theorem c7_projection_patch_round_trip (r : MapRecord) :
    ApplyMapPatch zeroMapRecord (EntityToMap r) {}
      = (r, [("count"), ("enabled"), ("id"), ("name")], none) := by
  cases r with
  | mk id name count enabled => cases enabled <;> rfl

/-- C1.  Contrary to the claim (and the repository's own race test), the
engine performs no duplicate-key race recovery: GetOrCreateTx always runs
exactly one identity-resolution pass whatever the outcomes, and when that
pass finds no row and the create fails with a duplicate-key-category error,
GetOrCreateTx, UpsertTx and UpsertManyTx all propagate that error directly
with no second resolution pass and no race winner returned. -/
theorem c1_duplicate_key_error_propagates (ρ : Type) (driver : String)
    (resolve : Nat → FindOutcome ρ) (upd : Except GoError ρ) (ce : GoError)
    (hfirst : resolve 0 = (none, none))
    (hdup : IsDuplicatedKey (some ce) = true) :
    (∀ (res2 : Nat → FindOutcome ρ) (cr : Except GoError ρ),
        (GetOrCreateTx ρ driver res2 cr).2 = 1)
    ∧ GetOrCreateTx ρ driver resolve (.error ce) = (.error ce, 1)
    ∧ UpsertTx ρ driver resolve (.error ce) upd = (.error ce, 1)
    ∧ UpsertManyTx ρ driver [⟨resolve, .error ce, upd⟩] = (.error ce, 1) := by
  have hce : mapPresentError driver ce = ce := by
    cases ce with
    | wrapped w => rfl
    | raw r => simp [IsDuplicatedKey] at hdup
  have hup : UpsertTx ρ driver resolve (.error ce) upd = (.error ce, 1) := by
    unfold UpsertTx
    rw [hfirst]
  refine ⟨?_, ?_, hup, ?_⟩
  · intro res2 cr
    unfold GetOrCreateTx
    rcases hres : res2 0 with ⟨f, s⟩
    cases s with
    | none => cases f <;> simp
    | some e => simp
  · unfold GetOrCreateTx
    rw [hfirst]
  · unfold UpsertManyTx
    rw [hup]
    simp [hce]

/-- C1 witness: a not-found first pass followed by a duplicate-key create
failure leaves GetOrCreateTx returning that very error after a single
resolution pass. -/
theorem c1_duplicate_key_error_propagates_witness :
    GetOrCreateTx Nat ("postgres") (fun _ => (none, none))
        (.error (.wrapped ⟨.databaseDuplicate, false,
          ("Duplicate key value violates unique constraint"),
          ("DUPLICATE_KEY")⟩))
      = (.error (.wrapped ⟨.databaseDuplicate, false,
          ("Duplicate key value violates unique constraint"),
          ("DUPLICATE_KEY")⟩), 1) := by
  have h := c1_duplicate_key_error_propagates Nat ("postgres")
      (fun _ => (none, none)) (.ok 0)
      (.wrapped ⟨.databaseDuplicate, false,
        ("Duplicate key value violates unique constraint"), ("DUPLICATE_KEY")⟩)
      rfl (by decide)
  exact h.2.1

/-- C4.  Contrary to the claim's third step, findExistingRecord never
consults a custom lookup resolver: its call trace never contains a resolver
lookup for any combination of handler configuration and lookup outcomes,
and at the claim's failing input — a record with nil primary key and no
identifier value, the situation the resolver exists for — it reports
not-found after zero lookups. -/
theorem c4_no_resolver_lookup_step (ρ : Type) (hasGetID : Bool) (pk : Nat)
    (identConfigured : Bool) (identValue : String)
    (lookupPK lookupIdent : Except GoError ρ) :
    ¬ LookupCall.byResolver ∈
        (findExistingRecord ρ hasGetID pk identConfigured identValue
          lookupPK lookupIdent).2
    ∧ findExistingRecord ρ hasGetID 0 false identValue lookupPK lookupIdent
        = ((none, none), []) := by
  constructor
  · have hid : (identifierLookupStep ρ identConfigured identValue lookupIdent).2 = []
        ∨ (identifierLookupStep ρ identConfigured identValue lookupIdent).2
            = [LookupCall.byIdentifier] := by
      unfold identifierLookupStep
      split
      · cases lookupIdent with
        | ok r => exact Or.inr rfl
        | error e =>
          by_cases hnf : IsRecordNotFound (some e) = true <;> simp [hnf]
      · exact Or.inl rfl
    intro hmem
    unfold findExistingRecord at hmem
    by_cases hc : (hasGetID && (pk != 0)) = true
    · rw [if_pos hc] at hmem
      cases lookupPK with
      | ok r => simp at hmem
      | error e =>
        by_cases hnf : IsRecordNotFound (some e) = true
        · rcases hid with h | h <;> simp [hnf, h] at hmem
        · simp [hnf] at hmem
    · rw [if_neg hc] at hmem
      rcases hid with h | h <;> rw [h] at hmem <;> simp at hmem
  · simp [findExistingRecord, identifierLookupStep]

/-- C4 witness: with a nil primary key and no identifier, identity
resolution reports not-found after zero lookups, and even a run that
reaches the identifier step never performs a resolver lookup. -/
theorem c4_no_resolver_lookup_step_witness :
    findExistingRecord Nat true 0 false ("") (.ok 3) (.ok 4) = ((none, none), [])
    ∧ ¬ LookupCall.byResolver ∈
        (findExistingRecord Nat true 5 true ("email")
          (.error genericNotFoundErr) (.ok 4)).2 :=
  ⟨(c4_no_resolver_lookup_step Nat true 0 false ("") (.ok 3) (.ok 4)).2,
   (c4_no_resolver_lookup_step Nat true 5 true ("email")
      (.error genericNotFoundErr) (.ok 4)).1⟩

/-- C9.  Contrary to the claim's UUID clause (and the repository's own
UUID-in-custom-column test), GetByIdentifierTx resolves a single column and
forces it to id whenever the identifier parses as a UUID: with identifier
column configured, a UUID-shaped identifier queries the id column, so the
single-query lookup misses a stored row whose identifier-column value
equals the identifier — the row the claim requires found — and reports the
categorized not-found, even though that row matches the identifier-column
predicate. -/
theorem c9_uuid_identifier_lookup_forced_to_id :
    getByIdentifierColumn (some ("identifier"))
        ("3f2504e0-4f89-11d3-9a0c-0305e82c3301") = ("id")
    ∧ GetByIdentifierTx (some ("identifier"))
        ("3f2504e0-4f89-11d3-9a0c-0305e82c3301") [uuidIdentifierRow] ("sqlite")
      = (none, some genericNotFoundErr)
    ∧ queryMatches
        (whereAdd ⟨[]⟩ (.cmp ("identifier") ("=")
          ("3f2504e0-4f89-11d3-9a0c-0305e82c3301")))
        uuidIdentifierRow = true := by
  refine ⟨by decide, ?_, by decide⟩
  rfl
